import Mathlib

/-!
Verification of the `ocd` command-line program's persisted-defaults store
(`ocd/defaults/__init__.py`), its session lifecycle (`ocd/__main__.py`:
`OCDApp.__init__`, `clean_up`, `handle_missing_api_key`) and the numeric
range-checking argument validator (`ocd/utils/__init__.py`: `ranged_type`).

The Python code is shallowly embedded: the sqlite3 table backing the
`Defaults` dataclass becomes an explicit list of rows kept in insertion
(rowid) order, exceptions become `Except String` values carrying the
exception message, and console/side-effecting collaborators (browser
launch, secret writes) are recorded in an explicit trace.
-/

namespace Ocd

/-- Python float values occurring in this program are short decimal
literals (`0.9`); we model them exactly as scaled decimals
`mant / 10 ^ exp10`, e.g. `0.9 = ⟨9, 1⟩`.  The program only stores,
copies and prints these values; it never does float arithmetic on them,
so the exact-decimal model is faithful. -/
structure PyFloat where
  mant : Int
  exp10 : Nat
deriving Repr, DecidableEq

/-- Drop trailing decimal zeros (`⟨90, 2⟩ ↦ (9, 1)`), mirroring that
Python's `str()` prints the shortest representation of such a float. -/
def stripZeros : Int → Nat → Int × Nat
  | m, 0 => (m, 0)
  | m, k + 1 => if m % 10 = 0 then stripZeros (m / 10) k else (m, k + 1)

/-- Python `str()` of a float that is an exact short decimal:
`⟨9, 1⟩ ↦ "0.9"`, `⟨5, 0⟩ ↦ "5.0"`. -/
def pyFloatStr (x : PyFloat) : String :=
  let p := stripZeros x.mant x.exp10
  let m := p.1
  let k := p.2
  let sign := if m < 0 then "-" else ""
  let n := m.natAbs
  if k = 0 then sign ++ toString n ++ ".0"
  else
    let ip := n / 10 ^ k
    let fp := n % 10 ^ k
    let fpStr := toString fp
    let pad := String.mk (List.replicate (k - fpStr.length) '0')
    sign ++ toString ip ++ "." ++ pad ++ fpStr

/-- The fifteen dataclass fields of `Defaults`
(`ocd/defaults/__init__.py` lines 63-77), in declaration order. -/
structure DefaultsState where
  CODEX_TEMPERATURE : PyFloat
  CODEX_MAX_TOKENS : Int
  CODEX_MODEL_ID : String
  EDIT_MODEL_ID : String
  EMBEDDING_MODEL_ID : String
  ENVIRONMENT : String
  IMAGES_MAX_N : Int
  IMAGES_MAX_PROMPT : Int
  IMAGES_N : Int
  IMAGES_RESPONSE_FORMAT : String
  IMAGES_SIZE : String
  MAX_TOKENS : Int
  MODEL_ID : String
  N : Int
  TEMPERATURE : PyFloat
deriving Repr, DecidableEq

/-- `Defaults.default_state` (lines 44-60).  `ENVIRONMENT`'s default is
`psec.utils.get_default_environment()`, an external call; it is passed in
as the parameter `envDefault`. -/
def default_state (envDefault : String) : DefaultsState where
  CODEX_TEMPERATURE := ⟨9, 1⟩
  CODEX_MAX_TOKENS := 500
  CODEX_MODEL_ID := "code-davinci-002"
  EDIT_MODEL_ID := "text-davinci-edit-001"
  EMBEDDING_MODEL_ID := "text-embedding-ada-002"
  ENVIRONMENT := envDefault
  IMAGES_MAX_N := 10
  IMAGES_MAX_PROMPT := 1000
  IMAGES_N := 1
  IMAGES_RESPONSE_FORMAT := "b64_json"
  IMAGES_SIZE := "512x512"
  MAX_TOKENS := 16
  MODEL_ID := "gpt-3.5-turbo"
  N := 1
  TEMPERATURE := ⟨9, 1⟩

/-- `Defaults.field_names()` (lines 208-218): dataclass field names in
declaration order. -/
def field_names : List String :=
  ["CODEX_TEMPERATURE", "CODEX_MAX_TOKENS", "CODEX_MODEL_ID",
   "EDIT_MODEL_ID", "EMBEDDING_MODEL_ID", "ENVIRONMENT",
   "IMAGES_MAX_N", "IMAGES_MAX_PROMPT", "IMAGES_N",
   "IMAGES_RESPONSE_FORMAT", "IMAGES_SIZE", "MAX_TOKENS",
   "MODEL_ID", "N", "TEMPERATURE"]

/-- The sqlite3 database file `defaults.db`.  `store none` is a database
in which the `defaults` table does not exist (a freshly created empty
file); `store (some rows)` holds the table's rows in insertion (rowid)
order, which is the order an unqualified `SELECT` scans them in;
`corrupt msg` is a store on which every statement raises
`sqlite3.OperationalError(msg)` (e.g. a malformed database file). -/
inductive Db where
  | store (rows : Option (List DefaultsState))
  | corrupt (msg : String)
deriving Repr, DecidableEq

/-- `Defaults.save_to_db` (lines 104-148): `CREATE TABLE IF NOT EXISTS
defaults (...)` followed by `INSERT INTO defaults VALUES (...)` of the
fifteen field values, then `commit`.  The `INSERT` appends one row; no
existing row is deleted or replaced. -/
def save_to_db (st : DefaultsState) : Db → Except String Db
  | .store none => .ok (.store (some [st]))
  | .store (some rows) => .ok (.store (some (rows ++ [st])))
  | .corrupt msg => .error msg

/-- Does `pat` match the front of `s`? (list-of-chars form). -/
def matchFront : List Char → List Char → Bool
  | [], _ => true
  | _ :: _, [] => false
  | a :: as, b :: bs => a == b && matchFront as bs

/-- Substring containment over lists of characters. -/
def containsSub (pat : List Char) : List Char → Bool
  | [] => matchFront pat []
  | c :: rest => matchFront pat (c :: rest) || containsSub pat rest

/-- Python's `'no such table' in str(exc)` test from
`Defaults.__post_init__` (line 98). -/
def containsNoSuchTable (msg : String) : Bool :=
  containsSub "no such table".data msg.data

/-- `Defaults.retrieve_from_db` (lines 177-186): `SELECT * FROM defaults`
then `fetchone()`.  On a missing table sqlite raises
`OperationalError("no such table: defaults")`; on an existing table
`fetchone()` returns the first row, and when it returns `None` the
method itself raises `OperationalError("no such table: defaults")`.
Otherwise each field is set positionally from the fetched row. -/
def retrieve_from_db : Db → Except String DefaultsState
  | .corrupt msg => .error msg
  | .store none => .error "no such table: defaults"
  | .store (some rows) =>
    match rows.head? with
    | none => .error "no such table: defaults"
    | some r => .ok r

/-- `Defaults.reset_to_defaults` (lines 188-193): every field is
overwritten with its `default_state` value (the loop over `field_names`
covers all fields, so the net effect is full replacement). -/
def reset_to_defaults (envDefault : String) (_st : DefaultsState) : DefaultsState :=
  default_state envDefault

/-- `Defaults.__post_init__` (lines 89-102): try `retrieve_from_db`;
on an `OperationalError` whose message contains `'no such table'`,
`reset_to_defaults()` then `save_to_db()`; any other error re-raises.
Returns the in-memory state together with the resulting database. -/
def post_init (envDefault : String) (db : Db) : Except String (DefaultsState × Db) :=
  match retrieve_from_db db with
  | .ok st => .ok (st, db)
  | .error msg =>
    if containsNoSuchTable msg then
      (save_to_db (default_state envDefault) db).map
        (fun db2 => (default_state envDefault, db2))
    else
      .error msg

/-- `Defaults.get_state` (lines 156-175): one `[name, type-name,
str(value)]` row per dataclass field, in declaration order, with a
header row first when `columns` is true. -/
def get_state (st : DefaultsState) (columns : Bool) : List (List String) :=
  (if columns then [["default", "type", "value"]] else []) ++
  [["CODEX_TEMPERATURE", "float", pyFloatStr st.CODEX_TEMPERATURE],
   ["CODEX_MAX_TOKENS", "int", toString st.CODEX_MAX_TOKENS],
   ["CODEX_MODEL_ID", "str", st.CODEX_MODEL_ID],
   ["EDIT_MODEL_ID", "str", st.EDIT_MODEL_ID],
   ["EMBEDDING_MODEL_ID", "str", st.EMBEDDING_MODEL_ID],
   ["ENVIRONMENT", "str", st.ENVIRONMENT],
   ["IMAGES_MAX_N", "int", toString st.IMAGES_MAX_N],
   ["IMAGES_MAX_PROMPT", "int", toString st.IMAGES_MAX_PROMPT],
   ["IMAGES_N", "int", toString st.IMAGES_N],
   ["IMAGES_RESPONSE_FORMAT", "str", st.IMAGES_RESPONSE_FORMAT],
   ["IMAGES_SIZE", "str", st.IMAGES_SIZE],
   ["MAX_TOKENS", "int", toString st.MAX_TOKENS],
   ["MODEL_ID", "str", st.MODEL_ID],
   ["N", "int", toString st.N],
   ["TEMPERATURE", "float", pyFloatStr st.TEMPERATURE]]

/-- The rows of the `defaults` table, when the store is intact and the
table exists. -/
def table_rows : Db → Option (List DefaultsState)
  | .store rows => rows
  | .corrupt _ => none

/-- Python `repr()` of the simple (quote-free) strings this program
stores: the string wrapped in single quotes. -/
def pyReprStr (s : String) : String := "'" ++ s ++ "'"

/-- Python `str(self.defaults)`: the dataclass `repr`, listing every
field as `name=repr(value)` in declaration order
(`OCDApp.__init__`, `ocd/__main__.py` line 82). -/
def dataclassStr (st : DefaultsState) : String :=
  "Defaults(CODEX_TEMPERATURE=" ++ pyFloatStr st.CODEX_TEMPERATURE ++
  ", CODEX_MAX_TOKENS=" ++ toString st.CODEX_MAX_TOKENS ++
  ", CODEX_MODEL_ID=" ++ pyReprStr st.CODEX_MODEL_ID ++
  ", EDIT_MODEL_ID=" ++ pyReprStr st.EDIT_MODEL_ID ++
  ", EMBEDDING_MODEL_ID=" ++ pyReprStr st.EMBEDDING_MODEL_ID ++
  ", ENVIRONMENT=" ++ pyReprStr st.ENVIRONMENT ++
  ", IMAGES_MAX_N=" ++ toString st.IMAGES_MAX_N ++
  ", IMAGES_MAX_PROMPT=" ++ toString st.IMAGES_MAX_PROMPT ++
  ", IMAGES_N=" ++ toString st.IMAGES_N ++
  ", IMAGES_RESPONSE_FORMAT=" ++ pyReprStr st.IMAGES_RESPONSE_FORMAT ++
  ", IMAGES_SIZE=" ++ pyReprStr st.IMAGES_SIZE ++
  ", MAX_TOKENS=" ++ toString st.MAX_TOKENS ++
  ", MODEL_ID=" ++ pyReprStr st.MODEL_ID ++
  ", N=" ++ toString st.N ++
  ", TEMPERATURE=" ++ pyFloatStr st.TEMPERATURE ++ ")"

/-- An in-process CLI session: the in-memory `Defaults` object plus the
backing `defaults.db` store it is connected to. -/
structure Session where
  state : DefaultsState
  db : Db
deriving Repr, DecidableEq

/-- An in-memory field assignment (plain attribute assignment on the
`Defaults` dataclass, the way commands change option defaults): only the
`state` component changes, the database is not touched. -/
def set_field (upd : DefaultsState → DefaultsState) (s : Session) : Session :=
  { s with state := upd s.state }

/-- `OCDApp.clean_up` (`ocd/__main__.py` lines 204-211): compare
`str(self.defaults)` with the snapshot `self.defaults_original` taken in
`OCDApp.__init__`; call `save_to_db()` exactly when they differ.
Returns whether `save_to_db` was invoked, and the resulting store. -/
def clean_up (s : Session) (defaults_original : String) : Bool × Except String Db :=
  if dataclassStr s.state ≠ defaults_original then
    (true, save_to_db s.state s.db)
  else
    (false, .ok s.db)

/-- Python `len()` of a string: its number of characters. -/
def pyLen (s : String) : Nat := s.data.length

/-- Python `s.startswith(pat)`. -/
def startswith (s pat : String) : Bool := matchFront pat.data s.data

/-- What `handle_missing_api_key` did before finishing: which
collaborators were reached.  `browser_attempted` records a call to
`open_browser`, `key_prompted` the second `input()` (the key prompt),
`secrets_set`/`secrets_written` the calls to `self.secrets.set_secret`
and `self.secrets.write_secrets`. -/
structure BootstrapTrace where
  browser_attempted : Bool
  key_prompted : Bool
  secrets_set : Bool
  secrets_written : Bool
deriving Repr, DecidableEq

/-- How `handle_missing_api_key` finished. -/
inductive BootstrapOutcome where
  | exitZero
  | browserError (msg : String)
  | fatalError (msg : String)
  | success (key : String)
deriving Repr, DecidableEq

/-- `ocd.utils.open_browser` (lines 166-204), as reached from
`handle_missing_api_key` (so `page` is never `None`): raises unless
stdin is a TTY or `force` is set; otherwise hands the page to the
`webbrowser` module. -/
def open_browser (stdin_isatty force : Bool) : Except String Unit :=
  if !stdin_isatty && !force then
    .error "[-] use --force to open browser when stdin is not a TTY"
  else
    .ok ()

/-- `OCDApp.handle_missing_api_key` (`ocd/__main__.py` lines 227-284)
from the first `input()` on: if the browser-prompt response is not in
`["n", "N"]`, call `open_browser` and fall through to the key prompt;
otherwise print an explanation and `sys.exit(0)`.  An entered key must
start with `"sk-"` and have length exactly 51, else
`RuntimeError('[-] that does not appear to be a valid OpenAI API key')`
is raised; on success the key is stored via `set_secret` +
`write_secrets` and returned. -/
def handle_missing_api_key (stdin_isatty force : Bool)
    (browser_response key_response : String) :
    BootstrapOutcome × BootstrapTrace :=
  if browser_response ∉ (["n", "N"] : List String) then
    match open_browser stdin_isatty force with
    | .error msg => (.browserError msg, ⟨true, false, false, false⟩)
    | .ok _ =>
      if !(startswith key_response "sk-" && pyLen key_response == 51) then
        (.fatalError "[-] that does not appear to be a valid OpenAI API key",
         ⟨true, true, false, false⟩)
      else
        (.success key_response, ⟨true, true, true, true⟩)
  else
    (.exitZero, ⟨false, false, false, false⟩)

/-- Python `int()` restricted to the plain decimal forms command-line
arguments take: an optional minus sign followed by digits. -/
def digitsToNatAux (acc : Nat) : List Char → Option Nat
  | [] => some acc
  | c :: cs =>
    if c.isDigit then digitsToNatAux (acc * 10 + (c.toNat - 48)) cs else none

/-- Value of a non-empty all-digit character list. -/
def digitsVal (cs : List Char) : Option Nat :=
  if cs.isEmpty then none else digitsToNatAux 0 cs

/-- Python `int(arg)` on plain decimal strings. -/
def pyInt (s : String) : Option Int :=
  match s.data with
  | '-' :: rest => (digitsVal rest).map (fun n => -(n : Int))
  | cs => (digitsVal cs).map Int.ofNat

/-- The closure returned by `ocd.utils.ranged_type(value_type,
min_value, max_value)` (lines 118-155).  `value_type` is the conversion
function (raising `ValueError` becomes `none`), `value_type_name` its
printed name, `toStr` the f-string rendering of the bounds.  Note the
source's out-of-range message interpolates `min_value` twice. -/
def range_checker {α : Type} [LinearOrder α] (value_type : String → Option α)
    (value_type_name : String) (toStr : α → String)
    (min_value max_value : α) (arg : String) : Except String α :=
  match value_type arg with
  | none => .error ("[-] must be a valid " ++ value_type_name)
  | some candidate =>
    if candidate < min_value ∨ candidate > max_value then
      .error ("[-] must be within [" ++ toStr min_value ++ ", " ++
              toStr min_value ++ "]")
    else
      .ok candidate

/-- Opening a store that an earlier open (of the same location) produced
yields the same state and leaves the store unchanged: either the earlier
open read an existing first row, which is still the first row, or it
initialized and persisted the single default row, which a reopen then
reads back. -/
theorem post_init_reopen (env : String) (db db1 : Db) (st0 : DefaultsState)
    (h : post_init env db = .ok (st0, db1)) :
    post_init env db1 = .ok (st0, db1) := by
  unfold post_init at h ⊢
  cases hdb : retrieve_from_db db with
  | ok st =>
    rw [hdb] at h
    simp only [Except.ok.injEq, Prod.mk.injEq] at h
    obtain ⟨rfl, rfl⟩ := h
    rw [hdb]
  | error msg =>
    rw [hdb] at h
    dsimp only at h
    cases hc : containsNoSuchTable msg with
    | false => rw [hc] at h; simp at h
    | true =>
      rw [hc] at h
      simp only [if_true] at h
      cases hs : save_to_db (default_state env) db with
      | error m => rw [hs] at h; simp [Except.map] at h
      | ok db2 =>
        rw [hs] at h
        simp only [Except.map, Except.ok.injEq, Prod.mk.injEq] at h
        obtain ⟨rfl, rfl⟩ := h
        cases db with
        | corrupt m => simp [save_to_db] at hs
        | store rows =>
          cases rows with
          | none =>
            simp only [save_to_db, Except.ok.injEq] at hs
            subst hs
            rfl
          | some rows2 =>
            cases rows2 with
            | nil =>
              simp only [save_to_db, List.nil_append, Except.ok.injEq] at hs
              subst hs
              rfl
            | cons a tail => simp [retrieve_from_db] at hdb

/-- Claim C1, refuting evaluation: on a fresh store, the first open
persists the single default row; after changing `MODEL_ID` to `"gpt-4"`
in memory and calling `save_to_db`, a fresh open of the same location
still returns `MODEL_ID = "gpt-3.5-turbo"`, because `save_to_db`
INSERTs a second row while `retrieve_from_db` fetches the first row.
The claim says the fresh open returns the new value; the code never
makes a saved change observable. -/
theorem save_invisible_on_fresh_open :
    post_init "default" (.store none) =
      .ok (default_state "default", .store (some [default_state "default"])) ∧
    save_to_db { default_state "default" with MODEL_ID := "gpt-4" }
        (.store (some [default_state "default"])) =
      .ok (.store (some [default_state "default",
                         { default_state "default" with MODEL_ID := "gpt-4" }])) ∧
    (post_init "default"
        (.store (some [default_state "default",
                       { default_state "default" with MODEL_ID := "gpt-4" }]))).map
        (fun p => p.1.MODEL_ID) = .ok "gpt-3.5-turbo" :=
  ⟨rfl, rfl, rfl⟩

/-- Claim C2, refuting evaluation: first-time open does persist exactly
one row, but the very next `save_to_db` leaves two rows in the table,
because the INSERT appends instead of replacing. -/
theorem save_appends_second_row :
    (post_init "default" (.store none)).map
        (fun p => (table_rows p.2).map List.length) = .ok (some 1) ∧
    (save_to_db (default_state "default")
        (.store (some [default_state "default"]))).map
        (fun db => (table_rows db).map List.length) = .ok (some 2) :=
  ⟨rfl, rfl⟩

/-- Claim C3: at session end, `clean_up` invokes `save_to_db` exactly
when the current serialized state `str(self.defaults)` differs from the
snapshot `self.defaults_original` taken at load time; when they are
equal, the store is returned untouched. -/
theorem clean_up_saves_iff_serialized_change (st0 : DefaultsState) (db1 : Db)
    (m : DefaultsState → DefaultsState) :
    ((clean_up ⟨m st0, db1⟩ (dataclassStr st0)).1 = true ↔
      dataclassStr (m st0) ≠ dataclassStr st0) ∧
    (dataclassStr (m st0) = dataclassStr st0 →
      (clean_up ⟨m st0, db1⟩ (dataclassStr st0)).2 = .ok db1) := by
  unfold clean_up
  by_cases h : dataclassStr (m st0) = dataclassStr st0 <;> simp [h]

/-- Witness for C3 at a concrete session whose state did not change:
no write occurs. -/
theorem clean_up_saves_iff_serialized_change_witness :
    (clean_up ⟨default_state "default", Db.store (some [default_state "default"])⟩
        (dataclassStr (default_state "default"))).2 =
      .ok (Db.store (some [default_state "default"])) :=
  (clean_up_saves_iff_serialized_change (default_state "default")
    (Db.store (some [default_state "default"])) (fun st => st)).2 rfl

/-- Claim C4: for every in-memory state, `reset_to_defaults()` followed
by `get_state()` yields exactly the built-in default value for every
field, in the declared field order (`CODEX_TEMPERATURE` first through
`TEMPERATURE` last). -/
theorem reset_then_get_state_yields_defaults (env : String) (st : DefaultsState) :
    get_state (reset_to_defaults env st) false =
      [["CODEX_TEMPERATURE", "float", "0.9"],
       ["CODEX_MAX_TOKENS", "int", "500"],
       ["CODEX_MODEL_ID", "str", "code-davinci-002"],
       ["EDIT_MODEL_ID", "str", "text-davinci-edit-001"],
       ["EMBEDDING_MODEL_ID", "str", "text-embedding-ada-002"],
       ["ENVIRONMENT", "str", env],
       ["IMAGES_MAX_N", "int", "10"],
       ["IMAGES_MAX_PROMPT", "int", "1000"],
       ["IMAGES_N", "int", "1"],
       ["IMAGES_RESPONSE_FORMAT", "str", "b64_json"],
       ["IMAGES_SIZE", "str", "512x512"],
       ["MAX_TOKENS", "int", "16"],
       ["MODEL_ID", "str", "gpt-3.5-turbo"],
       ["N", "int", "1"],
       ["TEMPERATURE", "float", "0.9"]] := by
  have h1 : pyFloatStr ⟨9, 1⟩ = "0.9" := rfl
  have h2 : toString (500 : Int) = "500" := rfl
  have h3 : toString (10 : Int) = "10" := rfl
  have h4 : toString (1000 : Int) = "1000" := rfl
  have h5 : toString (1 : Int) = "1" := rfl
  have h6 : toString (16 : Int) = "16" := rfl
  simp [get_state, reset_to_defaults, default_state, h1, h2, h3, h4, h5, h6]

/-- Claim C5: an in-memory field assignment without `save_to_db` leaves
the persisted store unchanged, and a fresh open of the same location
returns the previously persisted state, not the unsaved change. -/
theorem set_without_save_not_persisted (env : String) (db db1 : Db)
    (st0 : DefaultsState) (upd : DefaultsState → DefaultsState)
    (h : post_init env db = .ok (st0, db1)) :
    (set_field upd ⟨st0, db1⟩).db = db1 ∧
    post_init env (set_field upd ⟨st0, db1⟩).db = .ok (st0, db1) :=
  ⟨rfl, post_init_reopen env db db1 st0 h⟩

/-- Witness for C5: setting `MODEL_ID := "gpt-4"` in memory after a
first-time open; the store still holds (and a reopen returns) the
defaults. -/
theorem set_without_save_not_persisted_witness :
    (set_field (fun st => { st with MODEL_ID := "gpt-4" })
        ⟨default_state "default", Db.store (some [default_state "default"])⟩).db =
      Db.store (some [default_state "default"]) ∧
    post_init "default"
        (set_field (fun st => { st with MODEL_ID := "gpt-4" })
          ⟨default_state "default", Db.store (some [default_state "default"])⟩).db =
      .ok (default_state "default", Db.store (some [default_state "default"])) :=
  set_without_save_not_persisted "default" (Db.store none)
    (Db.store (some [default_state "default"])) (default_state "default")
    (fun st => { st with MODEL_ID := "gpt-4" }) rfl

/-- Claim C6: opening a store whose `defaults` table is missing is not
an error — every field is initialized to its built-in default and the
record is immediately persisted; an open-time storage error whose
message does not contain `'no such table'` (sqlite's missing-table
message is exactly `"no such table: defaults"` here) propagates to the
caller unchanged. -/
theorem open_missing_table_initializes (env : String) (db : Db) :
    post_init env (.store none) =
      .ok (default_state env, .store (some [default_state env])) ∧
    (∀ msg, retrieve_from_db db = .error msg → containsNoSuchTable msg = false →
      post_init env db = .error msg) := by
  refine ⟨rfl, fun msg h hc => ?_⟩
  unfold post_init
  rw [h]
  dsimp only
  rw [hc]
  simp

/-- Witness for C6: a fresh empty store is initialized; a malformed
store's error propagates unchanged. -/
theorem open_missing_table_initializes_witness :
    post_init "default" (.store none) =
      .ok (default_state "default", .store (some [default_state "default"])) ∧
    post_init "default" (.corrupt "database disk image is malformed") =
      .error "database disk image is malformed" :=
  ⟨(open_missing_table_initializes "default"
      (.corrupt "database disk image is malformed")).1,
   (open_missing_table_initializes "default"
      (.corrupt "database disk image is malformed")).2
     "database disk image is malformed" rfl rfl⟩

/-- Claim C7: a key that does not start with `"sk-"` or whose length is
not exactly 51 never reaches `set_secret`/`write_secrets`, and whenever
the key prompt was reached the procedure raises the fatal validation
error. -/
theorem invalid_key_fatal_no_secret_write (tty force : Bool) (br key : String)
    (h : startswith key "sk-" = false ∨ pyLen key ≠ 51) :
    (handle_missing_api_key tty force br key).2.secrets_set = false ∧
    (handle_missing_api_key tty force br key).2.secrets_written = false ∧
    ((handle_missing_api_key tty force br key).2.key_prompted = true →
      (handle_missing_api_key tty force br key).1 =
        .fatalError "[-] that does not appear to be a valid OpenAI API key") := by
  have hb : (startswith key "sk-" && pyLen key == 51) = false := by
    rcases h with h | h <;> simp [h]
  unfold handle_missing_api_key
  split
  · cases open_browser tty force with
    | error m => exact ⟨rfl, rfl, fun hk => absurd hk (by simp)⟩
    | ok u => rw [hb]; exact ⟨rfl, rfl, fun _ => rfl⟩
  · exact ⟨rfl, rfl, fun hk => absurd hk (by simp)⟩

/-- Witness for C7 at the concrete invalid key `"bogus"`. -/
theorem invalid_key_fatal_no_secret_write_witness :
    (handle_missing_api_key true false "" "bogus").2.secrets_set = false ∧
    (handle_missing_api_key true false "" "bogus").2.secrets_written = false ∧
    ((handle_missing_api_key true false "" "bogus").2.key_prompted = true →
      (handle_missing_api_key true false "" "bogus").1 =
        .fatalError "[-] that does not appear to be a valid OpenAI API key") :=
  invalid_key_fatal_no_secret_write true false "" "bogus" (Or.inl rfl)

/-- Claim C8: on browser-prompt response `"n"` or `"N"`, the procedure
exits with status 0 without prompting for a key and without touching
the browser or the secrets store. -/
theorem browser_no_exits_zero (tty force : Bool) (key : String) :
    handle_missing_api_key tty force "n" key =
      (.exitZero, ⟨false, false, false, false⟩) ∧
    handle_missing_api_key tty force "N" key =
      (.exitZero, ⟨false, false, false, false⟩) :=
  ⟨rfl, rfl⟩

/-- Claim C9, refuting evaluation: an out-of-range argument (42 against
the range [1, 10], as built by `ranged_type(int, 1, 10)` for
`--n` of `images create`) is rejected, but the message reads
`"[-] must be within [1, 1]"` — the f-string interpolates `min_value`
twice and never cites the maximum.  An in-range argument is returned
converted. -/
theorem ranged_type_range_message :
    range_checker pyInt "int" toString (1 : Int) 10 "42" =
      .error "[-] must be within [1, 1]" ∧
    range_checker pyInt "int" toString (1 : Int) 10 "5" = .ok 5 :=
  ⟨rfl, rfl⟩

/-- Claim C10: every browser-prompt response other than exactly `"n"`
or `"N"` (including `""`, `"no"`, `"No"`) is treated as yes: the
procedure attempts to open the browser, and when the browser launch
succeeds it proceeds to the key prompt. -/
theorem non_no_response_treated_as_yes (tty force : Bool) (br key : String)
    (h1 : br ≠ "n") (h2 : br ≠ "N") :
    (handle_missing_api_key tty force br key).2.browser_attempted = true ∧
    (open_browser tty force = .ok () →
      (handle_missing_api_key tty force br key).2.key_prompted = true) := by
  have hmem : br ∉ (["n", "N"] : List String) := by simp [h1, h2]
  unfold handle_missing_api_key
  rw [if_pos hmem]
  cases hob : open_browser tty force with
  | error m =>
    dsimp only
    exact ⟨rfl, fun hc => nomatch hc⟩
  | ok u =>
    cases u
    dsimp only
    constructor
    · split <;> rfl
    · intro _
      split <;> rfl

/-- Witness for C10 at the empty response, with a TTY present. -/
theorem non_no_response_treated_as_yes_witness :
    (handle_missing_api_key true false "" "bogus").2.browser_attempted = true ∧
    (open_browser true false = .ok () →
      (handle_missing_api_key true false "" "bogus").2.key_prompted = true) :=
  non_no_response_treated_as_yes true false "" "bogus" (by decide) (by decide)

end Ocd
